import Mathlib

/-!
Shallow embedding of the inference orchestration and result post-processing
pipeline of `app/model_engine.py` (DeepSeek-OCR Streamlit demo), together with
theorems settling the frozen claims about it.

Numeric coordinates are modelled with exact rationals; every place where the
Python code catches an exception and continues is modelled with `Option` or
`Except`, and side effects (tokenizer load, model load, GPU cache clears,
model invocation) are recorded as explicit event traces.
-/

/-- Python `min` of two values: the first argument when it is less than or
equal to the second. -/
def pymin (a b : ℚ) : ℚ := if a ≤ b then a else b

/-- Python `max` of two values: the first argument when it is greater than or
equal to the second. -/
def pymax (a b : ℚ) : ℚ := if b ≤ a then a else b

/-- Python exception values that the engine can raise, by class and message. -/
inductive PyErr where
  | valueError (msg : String)
  | runtimeError (msg : String)
  | cudaOOM (msg : String)
deriving DecidableEq, Repr

instance {ε α : Type} [DecidableEq ε] [DecidableEq α] : DecidableEq (Except ε α) := fun a b =>
  match a, b with
  | .ok x, .ok y =>
    if h : x = y then .isTrue (by rw [h]) else .isFalse (by simp [h])
  | .error e, .error f =>
    if h : e = f then .isTrue (by rw [h]) else .isFalse (by simp [h])
  | .ok _, .error _ => .isFalse (by simp)
  | .error _, .ok _ => .isFalse (by simp)

/-! ## Configuration catalog (`SIZE_CONFIGS`, `TASK_PROMPTS`) -/

/-- One entry of the `SIZE_CONFIGS` table of `model_engine.py`. -/
structure SizeConfig where
  base_size : Nat
  image_size : Nat
  crop_mode : Bool
deriving DecidableEq, Repr

/-- The `SIZE_CONFIGS` dictionary: lookup by model size name. -/
def SIZE_CONFIGS (s : String) : Option SizeConfig :=
  if s = "Tiny" then some ⟨512, 512, false⟩
  else if s = "Small" then some ⟨640, 640, false⟩
  else if s = "Base" then some ⟨1024, 1024, false⟩
  else if s = "Large" then some ⟨1280, 1280, false⟩
  else if s = "Gundam" then some ⟨1024, 640, true⟩
  else none

/-- The `TASK_PROMPTS` dictionary: lookup of the prompt template by task name. -/
def TASK_PROMPTS (t : String) : Option String :=
  if t = "free_ocr" then some "<image>\nFree OCR."
  else if t = "markdown" then some "<image>\n<|grounding|>Convert the document to markdown."
  else if t = "parse_figure" then some "<image>\nParse the figure."
  else if t = "locate" then some "<image>\nLocate <|ref|>{ref_text}<|/ref|> in the image."
  else none

/-- Strips a literal character sequence from the front of the input,
returning the rest on success. -/
def stripLit : List Char → List Char → Option (List Char)
  | [], cs => some cs
  | _ :: _, [] => none
  | l :: ls, c :: cs => if c = l then stripLit ls cs else none

/-- Replaces every occurrence of `needle` in the input by `repl`, scanning
left to right; the fuel is instantiated with the input length. -/
def replaceAux (needle repl : List Char) : Nat → List Char → List Char
  | 0, cs => cs
  | _ + 1, [] => []
  | fuel + 1, c :: cs =>
    match stripLit needle (c :: cs) with
    | some rest => repl ++ replaceAux needle repl fuel rest
    | none => c :: replaceAux needle repl fuel cs

/-- Python `template.format(ref_text=r)` on the prompt templates of
`TASK_PROMPTS`: substitute `r` for the `ref_text` slot. -/
def format_ref_text (template r : String) : String :=
  ⟨replaceAux "{ref_text}".data r.data template.data.length template.data⟩

/-- Embedding of `build_prompt`: validates the task name, and for the
`locate` task requires a non-empty `ref_text`, substituted into the slot of
the template exactly as Python `str.format` does on these templates. -/
def build_prompt (task_type : String) (ref_text : Option String) : Except PyErr String :=
  match TASK_PROMPTS task_type with
  | none =>
    .error (.valueError ("Invalid task type: " ++ task_type ++
      ". Valid options: free_ocr, markdown, parse_figure, locate"))
  | some prompt =>
    if task_type = "locate" then
      match ref_text with
      | none => .error (.valueError "Reference text is required for 'locate' task")
      | some r =>
        if r = "" then .error (.valueError "Reference text is required for 'locate' task")
        else .ok (format_ref_text prompt r)
    else .ok prompt

/-! ## Detection parser (`extract_bounding_boxes`) -/

/-- A pixel-space bounding box `(x1, y1, x2, y2)`. -/
abbrev Box := ℚ × ℚ × ℚ × ℚ

/-- Characters matched by a coordinate group of the detection pattern,
the character class of digits plus the dot. -/
def isCoordChar (c : Char) : Bool := c.isDigit || c == '.'

/-- The four captured coordinate groups of one detection tag match. -/
structure DetMatch where
  g1 : String
  g2 : String
  g3 : String
  g4 : String
deriving DecidableEq, Repr

/-- Splits off the maximal leading run of coordinate characters, which is how
the regex engine resolves each greedy coordinate group here (the character
after each group in the pattern is a comma or an angle bracket, neither of
which is a coordinate character, so no backtracking can apply). -/
def takeCoordRun (cs : List Char) : List Char × List Char :=
  (cs.takeWhile isCoordChar, cs.dropWhile isCoordChar)

/-- The literal opening detection marker. -/
def detOpen : List Char := "<|det|>".data

/-- The literal closing detection marker. -/
def detClose : List Char := "<|/det|>".data

/-- Attempts to match the full detection pattern anchored at the start of the
input; on success returns the four captured groups and the remaining input. -/
def matchDetAt (cs : List Char) : Option (DetMatch × List Char) :=
  match stripLit detOpen cs with
  | none => none
  | some r0 =>
    let (g1, r1) := takeCoordRun r0
    if g1 = [] then none else
    match r1 with
    | ',' :: r1b =>
      let (g2, r2) := takeCoordRun r1b
      if g2 = [] then none else
      match r2 with
      | ',' :: r2b =>
        let (g3, r3) := takeCoordRun r2b
        if g3 = [] then none else
        match r3 with
        | ',' :: r3b =>
          let (g4, r4) := takeCoordRun r3b
          if g4 = [] then none else
          match stripLit detClose r4 with
          | none => none
          | some rest => some (⟨⟨g1⟩, ⟨g2⟩, ⟨g3⟩, ⟨g4⟩⟩, rest)
        | _ => none
      | _ => none
    | _ => none

/-- Left-to-right scan for all non-overlapping matches of the detection
pattern, as `re.findall` performs it: try a match at each position, and after
a successful match resume right after it. The fuel argument is instantiated
with the input length, which every step strictly decreases below. -/
def scanDet : Nat → List Char → List DetMatch
  | 0, _ => []
  | _ + 1, [] => []
  | fuel + 1, c :: cs =>
    match matchDetAt (c :: cs) with
    | some (m, rest) => m :: scanDet fuel rest
    | none => scanDet fuel cs

/-- All matches of the detection pattern in the text, in order of appearance,
as computed by `re.findall(pattern, text)` in `extract_bounding_boxes`. -/
def findDetMatches (text : String) : List DetMatch :=
  scanDet text.data.length text.data

/-- Numeric value of a digit string, most significant digit first. -/
def digitsVal (cs : List Char) : Nat :=
  cs.foldl (fun a c => a * 10 + (c.toNat - 48)) 0

/-- Models Python `float()` on strings drawn from digits and dots, the only
strings a coordinate group can capture: it succeeds exactly when the string
has at least one digit and at most one dot, with the exact decimal value
(represented as a rational). -/
def pyFloatOfCoords (s : String) : Option ℚ :=
  let cs := s.data
  if cs.all isCoordChar ∧ cs.countP (fun c => c = '.') ≤ 1 ∧ cs.any Char.isDigit then
    let ip := cs.takeWhile (fun c => c ≠ '.')
    let fp := (cs.dropWhile (fun c => c ≠ '.')).drop 1
    some ((digitsVal ip : ℚ) + (digitsVal fp : ℚ) / (10 : ℚ) ^ fp.length)
  else none

/-- Per-match conversion: parse the four captured coordinates, require each in
`[0, 1]`, scale by the image width and height and clamp each coordinate into
bounds; `none` when the match is skipped by the loop of
`extract_bounding_boxes`. -/
def convertMatch (w h : ℚ) (m : DetMatch) : Option Box :=
  match pyFloatOfCoords m.g1, pyFloatOfCoords m.g2,
        pyFloatOfCoords m.g3, pyFloatOfCoords m.g4 with
  | some nx1, some ny1, some nx2, some ny2 =>
    if 0 ≤ nx1 ∧ nx1 ≤ 1 ∧ 0 ≤ ny1 ∧ ny1 ≤ 1 ∧
       0 ≤ nx2 ∧ nx2 ≤ 1 ∧ 0 ≤ ny2 ∧ ny2 ≤ 1 then
      some (pymax 0 (pymin (nx1 * w) w), pymax 0 (pymin (ny1 * h) h),
            pymax 0 (pymin (nx2 * w) w), pymax 0 (pymin (ny2 * h) h))
    else none
  | _, _, _, _ => none

/-- The `for match in matches` loop of `extract_bounding_boxes`: each match is
parsed, range-checked, scaled and clamped; a parse failure or an out-of-range
coordinate skips that match and continues with the rest. -/
def scaleLoop (w h : ℚ) : List DetMatch → List Box
  | [] => []
  | m :: rest =>
    match pyFloatOfCoords m.g1, pyFloatOfCoords m.g2,
          pyFloatOfCoords m.g3, pyFloatOfCoords m.g4 with
    | some nx1, some ny1, some nx2, some ny2 =>
      if 0 ≤ nx1 ∧ nx1 ≤ 1 ∧ 0 ≤ ny1 ∧ ny1 ≤ 1 ∧
         0 ≤ nx2 ∧ nx2 ≤ 1 ∧ 0 ≤ ny2 ∧ ny2 ≤ 1 then
        (pymax 0 (pymin (nx1 * w) w), pymax 0 (pymin (ny1 * h) h),
         pymax 0 (pymin (nx2 * w) w), pymax 0 (pymin (ny2 * h) h)) :: scaleLoop w h rest
      else scaleLoop w h rest
    | _, _, _, _ => scaleLoop w h rest

/-- Embedding of `extract_bounding_boxes(text, image_size)`: find all
detection-tag matches and run the scaling loop over them. -/
def extract_bounding_boxes (text : String) (size : ℚ × ℚ) : List Box :=
  scaleLoop size.1 size.2 (findDetMatches text)

/-- Embedding of `draw_bounding_boxes`, observed through the sequence of
rectangles it actually draws on the image: a box whose width or height is
zero or negative (`x2 <= x1 or y2 <= y1`) is skipped, every other box is
drawn in order. -/
def draw_bounding_boxes : List Box → List Box
  | [] => []
  | (x1, y1, x2, y2) :: rest =>
    if x2 ≤ x1 ∨ y2 ≤ y1 then draw_bounding_boxes rest
    else (x1, y1, x2, y2) :: draw_bounding_boxes rest


/-! ## Model resource manager (`ModelManager`) -/

/-- The class-level mutable fields of `ModelManager`: the cached model handle,
the cached tokenizer handle and the cached loading error message. -/
structure MState where
  model : Option Nat
  tokenizer : Option Nat
  loadingError : Option String
deriving DecidableEq, Repr

/-- Outcome the environment produces for one external loading step when it is
attempted: a handle, a CUDA out-of-memory exception, or another exception. -/
inductive StepResult where
  | ok (handle : Nat)
  | oom (msg : String)
  | err (msg : String)
deriving DecidableEq, Repr

/-- Environment of one construction attempt: what `AutoTokenizer.from_pretrained`,
the flash-attention `AutoModel.from_pretrained` attempt and the fallback
default-attention attempt would each do if reached. -/
structure LoadEnv where
  tokRes : StepResult
  flashRes : StepResult
  defaultRes : StepResult
deriving DecidableEq, Repr

/-- Observable side effects of the engine, in program order: the call into
`ModelManager.get_model`, the tokenizer load, the two model-load attempts,
`torch.cuda.empty_cache()`, and the model invocation `model.infer(...)`. -/
inductive Ev where
  | getModelCall
  | loadTok
  | loadModelFlash
  | loadModelDefault
  | emptyCache
  | invoke
deriving DecidableEq, Repr

/-- Embedding of `ModelManager.get_model`: returns the new class state, the
construction side effects performed, and either the `(model, tokenizer)` pair
or the exception raised. A cached model returns immediately; a cached loading
error raises immediately with that reason; otherwise construction is
attempted, the flash-attention failure falling back to the default load, and
any construction failure is cached in `loadingError` before re-raising. -/
def get_model (env : LoadEnv) (s : MState) :
    MState × List Ev × Except PyErr (Option Nat × Option Nat) :=
  if s.model.isSome then
    (s, [], .ok (s.model, s.tokenizer))
  else
    match s.loadingError with
    | some e => (s, [], .error (.runtimeError ("Model loading previously failed: " ++ e)))
    | none =>
      match env.tokRes with
      | .oom m =>
        ({ s with loadingError := some ("GPU out of memory: " ++ m) },
         [.loadTok], .error (.cudaOOM ("GPU out of memory: " ++ m)))
      | .err m =>
        ({ s with loadingError := some ("Failed to load model: " ++ m) },
         [.loadTok], .error (.runtimeError ("Failed to load model: " ++ m)))
      | .ok tok =>
        match env.flashRes with
        | .ok mdl =>
          (⟨some mdl, some tok, s.loadingError⟩,
           [.loadTok, .loadModelFlash], .ok (some mdl, some tok))
        | _ =>
          match env.defaultRes with
          | .ok mdl =>
            (⟨some mdl, some tok, s.loadingError⟩,
             [.loadTok, .loadModelFlash, .loadModelDefault], .ok (some mdl, some tok))
          | .oom m =>
            (⟨s.model, some tok, some ("GPU out of memory: " ++ m)⟩,
             [.loadTok, .loadModelFlash, .loadModelDefault],
             .error (.cudaOOM ("GPU out of memory: " ++ m)))
          | .err m =>
            (⟨s.model, some tok, some ("Failed to load model: " ++ m)⟩,
             [.loadTok, .loadModelFlash, .loadModelDefault],
             .error (.runtimeError ("Failed to load model: " ++ m)))

/-- Embedding of `ModelManager.clear_cache`: drops the cached model and
tokenizer, clears the cached loading error, and empties the GPU cache. -/
def clear_cache (_s : MState) : MState × List Ev :=
  (⟨none, none, none⟩, [.emptyCache])

/-- Embedding of `ModelManager.is_loaded`. -/
def is_loaded (s : MState) : Bool := s.model.isSome

/-! ## Inference driver (`run_inference`) -/

/-- Outcome the environment produces for the `model.infer(...)` call when it
is reached: a response text, or any exception (which the inner handler of
`run_inference` wraps into a `RuntimeError`). -/
inductive InferRes where
  | ok (text : String)
  | fail (msg : String)
deriving DecidableEq, Repr

/-- The result dictionary of a successful `run_inference` call: the response
text, the extracted bounding boxes, and the rectangles drawn on the annotated
copy of the original image (`none` when no boxes were extracted, matching the
`annotated_image: None` field). -/
structure OCRResult where
  text : String
  bounding_boxes : List Box
  annotated : Option (List Box)
deriving DecidableEq, Repr

/-- Embedding of `run_inference`, with the outer `try/except` blocks made
explicit. The steps occur in the order of the source: the `isinstance` image
check, then `ModelManager.get_model()`, then `preprocess_image` (whose
observable failure is the invalid-size validation of `get_model_config`),
then `build_prompt`, then a GPU cache clear, then the invocation, and on
success bounding-box extraction, drawing, and a final GPU cache clear. The
`width`/`height` arguments are the size of the original input image, which is
what `extract_bounding_boxes(response, image.size)` receives. -/
def run_inference (env : LoadEnv) (inf : InferRes) (s : MState) (imageIsPIL : Bool)
    (width height : ℚ) (model_size task_type : String) (ref_text : Option String) :
    MState × List Ev × Except PyErr OCRResult :=
  if imageIsPIL = false then
    (s, [], .error (.valueError "Invalid image: must be a PIL Image object"))
  else
    match get_model env s with
    | (s1, evs1, .error (.cudaOOM m)) =>
      (s1, .getModelCall :: (evs1 ++ [.emptyCache]),
       .error (.cudaOOM
         ("GPU out of memory during inference. Try using a smaller model size. Error: " ++ m)))
    | (s1, evs1, .error (.runtimeError m)) =>
      (s1, .getModelCall :: evs1, .error (.runtimeError ("Inference failed: " ++ m)))
    | (s1, evs1, .error (.valueError m)) =>
      (s1, .getModelCall :: evs1, .error (.valueError m))
    | (s1, evs1, .ok _handles) =>
      match SIZE_CONFIGS model_size with
      | none =>
        (s1, .getModelCall :: evs1,
         .error (.valueError ("Invalid model size: " ++ model_size ++
           ". Valid options: Tiny, Small, Base, Large, Gundam")))
      | some _cfg =>
        match build_prompt task_type ref_text with
        | .error e => (s1, .getModelCall :: evs1, .error e)
        | .ok _prompt =>
          match inf with
          | .fail m =>
            (s1, .getModelCall :: (evs1 ++ [.emptyCache, .invoke]),
             .error (.runtimeError ("Inference failed: Model inference failed: " ++ m)))
          | .ok text =>
            let bxs := extract_bounding_boxes text (width, height)
            (s1, .getModelCall :: (evs1 ++ [.emptyCache, .invoke, .emptyCache]),
             .ok { text := text, bounding_boxes := bxs,
                   annotated := if bxs = [] then none else some (draw_bounding_boxes bxs) })

/-! ## Interleaving model of concurrent `get_model` callers

The class-level fields of `ModelManager` are shared mutable state and the
method takes no lock, so two callers can interleave between its check of the
cached model and the assignments performed by construction. Each caller is
modelled as a small program over the shared `MState`, one step per
check or assignment of the Python method. -/

/-- Program counter of one caller inside `ModelManager.get_model`. -/
inductive PC where
  | start
  | checkErr
  | loadTokStep
  | loadModelStep
  | done (res : Except PyErr (Option Nat × Option Nat))
deriving DecidableEq, Repr

/-- One step of one caller of `get_model` over the shared state, returning the
new program counter, the new shared state and the construction side effects
of the step. -/
def threadStep (env : LoadEnv) (pc : PC) (s : MState) : PC × MState × List Ev :=
  match pc with
  | .start =>
    if s.model.isSome then (.done (.ok (s.model, s.tokenizer)), s, [])
    else (.checkErr, s, [])
  | .checkErr =>
    match s.loadingError with
    | some e => (.done (.error (.runtimeError ("Model loading previously failed: " ++ e))), s, [])
    | none => (.loadTokStep, s, [])
  | .loadTokStep =>
    match env.tokRes with
    | .ok tok => (.loadModelStep, ⟨s.model, some tok, s.loadingError⟩, [.loadTok])
    | .oom m =>
      (.done (.error (.cudaOOM ("GPU out of memory: " ++ m))),
       ⟨s.model, s.tokenizer, some ("GPU out of memory: " ++ m)⟩, [.loadTok])
    | .err m =>
      (.done (.error (.runtimeError ("Failed to load model: " ++ m))),
       ⟨s.model, s.tokenizer, some ("Failed to load model: " ++ m)⟩, [.loadTok])
  | .loadModelStep =>
    match env.flashRes with
    | .ok mdl =>
      (.done (.ok (some mdl, s.tokenizer)), ⟨some mdl, s.tokenizer, s.loadingError⟩,
       [.loadModelFlash])
    | _ =>
      match env.defaultRes with
      | .ok mdl =>
        (.done (.ok (some mdl, s.tokenizer)), ⟨some mdl, s.tokenizer, s.loadingError⟩,
         [.loadModelFlash, .loadModelDefault])
      | .oom m =>
        (.done (.error (.cudaOOM ("GPU out of memory: " ++ m))),
         ⟨s.model, s.tokenizer, some ("GPU out of memory: " ++ m)⟩,
         [.loadModelFlash, .loadModelDefault])
      | .err m =>
        (.done (.error (.runtimeError ("Failed to load model: " ++ m))),
         ⟨s.model, s.tokenizer, some ("Failed to load model: " ++ m)⟩,
         [.loadModelFlash, .loadModelDefault])
  | .done r => (.done r, s, [])

/-- State of two concurrent callers of `get_model` over the shared class
state. -/
structure TwoCallers where
  pc1 : PC
  pc2 : PC
  shared : MState
deriving DecidableEq, Repr

/-- Runs a schedule over two concurrent callers: `true` steps the first
caller, `false` the second; returns the final system state and the
concatenated side effects. -/
def runSched (env1 env2 : LoadEnv) : List Bool → TwoCallers → TwoCallers × List Ev
  | [], sys => (sys, [])
  | b :: rest, sys =>
    let (pc', s', evs) :=
      if b then threadStep env1 sys.pc1 sys.shared else threadStep env2 sys.pc2 sys.shared
    let sys' := if b then ⟨pc', sys.pc2, s'⟩ else ⟨sys.pc1, pc', s'⟩
    let (sysF, evsR) := runSched env1 env2 rest sys'
    (sysF, evs ++ evsR)

/-! ## Image preprocessor (`preprocess_image`)

The bitmap type is modelled with an abstract pixel buffer `Pix`; the two
pixel-level kernels the code delegates to PIL — color conversion of
`Image.convert("RGB")` and the LANCZOS resampling of `Image.thumbnail` — are
taken as parameters, so every theorem below holds for every choice of them.
The size arithmetic of `Image.thumbnail` (PIL's documented behavior: return
unchanged when the image already fits the bounding box, otherwise shrink
preserving aspect ratio, never upsizing) is modelled exactly, with the
float `aspect` ratio carried as an exact rational. -/

/-- A PIL image: color mode, pixel dimensions, and abstract pixel data. -/
structure PilImage (Pix : Type) where
  mode : String
  width : Nat
  height : Nat
  data : Pix
deriving DecidableEq, Repr

/-- The `image.convert("RGB")` step of `preprocess_image`: a no-op when the
mode is already RGB, otherwise a converted copy in mode RGB. -/
def convertRGB {Pix : Type} (conv : Pix → Pix) (img : PilImage Pix) : PilImage Pix :=
  if img.mode = "RGB" then img
  else ⟨"RGB", img.width, img.height, conv img.data⟩

/-- Python `abs` on exact rationals. -/
def pyabs (q : ℚ) : ℚ := if q < 0 then -q else q

/-- PIL `round_aspect`: of the floor and the ceiling the one with the smaller
key (the floor when tied), and at least 1. -/
def round_aspect (number : ℚ) (key : ℤ → ℚ) : ℤ :=
  max (if key ⌊number⌋ ≤ key ⌈number⌉ then ⌊number⌋ else ⌈number⌉) 1

/-- Size computation of PIL `Image.thumbnail` (its `preserve_aspect_ratio`):
`none` when the image already fits the bounding box (no resize at all),
otherwise the target size, preserving the aspect ratio. -/
def thumbnailSize (w h boxW boxH : Nat) : Option (Nat × Nat) :=
  if boxW ≥ w ∧ boxH ≥ h then none
  else if (boxW : ℚ) / (boxH : ℚ) ≥ (w : ℚ) / (h : ℚ) then
    some ((round_aspect ((boxH : ℚ) * ((w : ℚ) / (h : ℚ)))
      (fun n => pyabs ((w : ℚ) / (h : ℚ) - (n : ℚ) / (boxH : ℚ)))).toNat, boxH)
  else
    some (boxW, (round_aspect ((boxW : ℚ) / ((w : ℚ) / (h : ℚ)))
      (fun n => if n = 0 then 0 else pyabs ((w : ℚ) / (h : ℚ) - (boxW : ℚ) / (n : ℚ)))).toNat)

/-- PIL `Image.thumbnail(size, LANCZOS)` on the level of mode, dimensions and
data: no change when the image fits the box or the computed size equals the
current size, otherwise a resample to the computed size. -/
def thumbnail {Pix : Type} (resample : Pix → Nat → Nat → Pix)
    (img : PilImage Pix) (boxW boxH : Nat) : PilImage Pix :=
  match thumbnailSize img.width img.height boxW boxH with
  | none => img
  | some (w', h') =>
    if img.width = w' ∧ img.height = h' then img
    else ⟨img.mode, w', h', resample img.data w' h'⟩

/-- Embedding of `preprocess_image(image, model_size)`: validate the size
name, convert to RGB if needed, and bound both dimensions by the configured
`image_size` via `thumbnail`. -/
def preprocess_image {Pix : Type} (conv : Pix → Pix) (resample : Pix → Nat → Nat → Pix)
    (img : PilImage Pix) (model_size : String) : Except PyErr (PilImage Pix) :=
  match SIZE_CONFIGS model_size with
  | none =>
    .error (.valueError ("Invalid model size: " ++ model_size ++
      ". Valid options: Tiny, Small, Base, Large, Gundam"))
  | some cfg =>
    .ok (thumbnail resample (convertRGB conv img) cfg.image_size cfg.image_size)

/-! ## Lemmas about clamping, the scaling loop and drawing -/

theorem pymax_zero_nonneg (x : ℚ) : 0 ≤ pymax 0 x := by
  unfold pymax
  by_cases h : x ≤ 0
  · simp [h]
  · simp [h]
    linarith [not_le.mp h]

theorem pymin_le (x w : ℚ) : pymin x w ≤ w := by
  unfold pymin
  by_cases h : x ≤ w <;> simp [h]

theorem pymax_zero_le {x w : ℚ} (hw : 0 ≤ w) (hx : x ≤ w) : pymax 0 x ≤ w := by
  unfold pymax
  by_cases h : x ≤ 0 <;> simp [h, hw, hx]

/-- Each clamped coordinate lies in `[0, w]` when the bound is nonnegative. -/
theorem clamp_bounds (v : ℚ) {w : ℚ} (hw : 0 ≤ w) :
    0 ≤ pymax 0 (pymin v w) ∧ pymax 0 (pymin v w) ≤ w :=
  ⟨pymax_zero_nonneg _, pymax_zero_le hw (pymin_le _ _)⟩

/-- All four coordinates of a box clamped within the image bounds. -/
def boxInBounds (w h : ℚ) (b : Box) : Prop :=
  0 ≤ b.1 ∧ b.1 ≤ w ∧ 0 ≤ b.2.1 ∧ b.2.1 ≤ h ∧
  0 ≤ b.2.2.1 ∧ b.2.2.1 ≤ w ∧ 0 ≤ b.2.2.2 ∧ b.2.2.2 ≤ h

/-- The per-iteration body of the scaling loop agrees with `convertMatch`:
the loop is exactly an in-order `filterMap`, so invalid matches are skipped
and the surviving boxes keep their order of appearance. -/
theorem scaleLoop_eq_filterMap (w h : ℚ) (ms : List DetMatch) :
    scaleLoop w h ms = ms.filterMap (convertMatch w h) := by
  induction ms with
  | nil => rfl
  | cons m rest ih =>
    simp only [scaleLoop, List.filterMap_cons, convertMatch]
    cases pyFloatOfCoords m.g1 <;> cases pyFloatOfCoords m.g2 <;>
      cases pyFloatOfCoords m.g3 <;> cases pyFloatOfCoords m.g4 <;>
      simp only [] <;> first
      | exact ih
      | (split <;> simp [ih])

/-- Every box produced by `convertMatch` is a 4-tuple of clamped values. -/
theorem convertMatch_eq_some {w h : ℚ} {m : DetMatch} {b : Box}
    (hc : convertMatch w h m = some b) :
    ∃ nx1 ny1 nx2 ny2 : ℚ,
      b = (pymax 0 (pymin (nx1 * w) w), pymax 0 (pymin (ny1 * h) h),
           pymax 0 (pymin (nx2 * w) w), pymax 0 (pymin (ny2 * h) h)) := by
  unfold convertMatch at hc
  split at hc
  · split at hc
    · exact ⟨_, _, _, _, (Option.some.inj hc).symm⟩
    · exact absurd hc (by simp)
  · exact absurd hc (by simp)

/-- A drawn box was in the input and has strictly positive width and height. -/
theorem mem_draw_bounding_boxes {l : List Box} {b : Box}
    (hb : b ∈ draw_bounding_boxes l) :
    b ∈ l ∧ b.1 < b.2.2.1 ∧ b.2.1 < b.2.2.2 := by
  induction l with
  | nil => simp [draw_bounding_boxes] at hb
  | cons x rest ih =>
    rcases x with ⟨x1, y1, x2, y2⟩
    unfold draw_bounding_boxes at hb
    split at hb
    · rcases ih hb with ⟨h1, h2⟩
      exact ⟨List.mem_cons_of_mem _ h1, h2⟩
    · rcases List.mem_cons.mp hb with rfl | h
      · next hcond =>
          rcases not_or.mp hcond with ⟨hx, hy⟩
          exact ⟨List.mem_cons_self _ _, not_le.mp hx, not_le.mp hy⟩
      · rcases ih h with ⟨h1, h2⟩
        exact ⟨List.mem_cons_of_mem _ h1, h2⟩

/-! ## Claims C1, C2, C6: the detection parser -/

unseal Rat.mul Rat.add Rat.inv in
/-- C1, counterexample: `extract_bounding_boxes` does NOT drop a box whose
width and height are zero after scaling. On `<|det|>0.5,0.5,0.5,0.5<|/det|>`
with image size (100, 100) the degenerate box (50, 50, 50, 50), with
`x2 = x1` and `y2 = y1`, is included in the returned sequence, so the claimed
invariant `x1 < x2` and the claimed dropping both fail. -/
theorem extract_bounding_boxes_keeps_degenerate_box :
    extract_bounding_boxes "<|det|>0.5,0.5,0.5,0.5<|/det|>" (100, 100) =
      [(50, 50, 50, 50)] ∧ ¬ ((50 : ℚ) < 50) := by
  exact ⟨by decide, by decide⟩

/-- C1, amended: every coordinate of every box returned by
`extract_bounding_boxes` is clamped into `[0, width]` resp. `[0, height]`,
but degenerate boxes (`x2 ≤ x1` or `y2 ≤ y1`) are kept in the returned
sequence; they are skipped only later by `draw_bounding_boxes`, so every box
actually drawn additionally satisfies `x1 < x2` and `y1 < y2`. -/
theorem extract_bounding_boxes_clamped_and_draw_drops_degenerate
    (text : String) (w h : ℚ) (hw : 0 ≤ w) (hh : 0 ≤ h) :
    (∀ b ∈ extract_bounding_boxes text (w, h), boxInBounds w h b) ∧
    (∀ b ∈ draw_bounding_boxes (extract_bounding_boxes text (w, h)),
      boxInBounds w h b ∧ b.1 < b.2.2.1 ∧ b.2.1 < b.2.2.2) := by
  have hmem : ∀ b ∈ extract_bounding_boxes text (w, h), boxInBounds w h b := by
    intro b hb
    simp only [extract_bounding_boxes, scaleLoop_eq_filterMap] at hb
    rcases List.mem_filterMap.mp hb with ⟨m, _, hconv⟩
    rcases convertMatch_eq_some hconv with ⟨nx1, ny1, nx2, ny2, rfl⟩
    exact ⟨(clamp_bounds _ hw).1, (clamp_bounds _ hw).2,
           (clamp_bounds _ hh).1, (clamp_bounds _ hh).2,
           (clamp_bounds _ hw).1, (clamp_bounds _ hw).2,
           (clamp_bounds _ hh).1, (clamp_bounds _ hh).2⟩
  refine ⟨hmem, ?_⟩
  intro b hb
  rcases mem_draw_bounding_boxes hb with ⟨hbl, hlt⟩
  exact ⟨hmem b hbl, hlt⟩

/-- C1, witness for the amended theorem at a concrete text and image size. -/
theorem extract_bounding_boxes_clamped_and_draw_drops_degenerate_witness :
    0 ≤ (1000 : ℚ) ∧ 0 ≤ (500 : ℚ) ∧
    ((∀ b ∈ extract_bounding_boxes "<|det|>0.1,0.2,0.6,0.8<|/det|>" (1000, 500),
        boxInBounds 1000 500 b) ∧
     (∀ b ∈ draw_bounding_boxes
          (extract_bounding_boxes "<|det|>0.1,0.2,0.6,0.8<|/det|>" (1000, 500)),
        boxInBounds 1000 500 b ∧ b.1 < b.2.2.1 ∧ b.2.1 < b.2.2.2)) :=
  ⟨by decide, by decide,
   extract_bounding_boxes_clamped_and_draw_drops_degenerate
     "<|det|>0.1,0.2,0.6,0.8<|/det|>" 1000 500 (by decide) (by decide)⟩

/-- C2, counterexample: on the exact text `<det>0.1,0.2,0.6,0.8</det>` the
parser returns NO detection, because the tag grammar of the code is
`<|det|>...<|/det|>`, not `<det>...</det>`. -/
theorem extract_bounding_boxes_plain_tag_yields_nothing :
    extract_bounding_boxes "<det>0.1,0.2,0.6,0.8</det>" (1000, 500) = [] := by decide

unseal Rat.mul Rat.add Rat.inv in
/-- C2, amended: with the tag grammar of the code, text
`<|det|>0.1,0.2,0.6,0.8<|/det|>` and image size (1000, 500) yield exactly one
detection, exactly (100, 100, 600, 400) in exact rational arithmetic. -/
theorem extract_bounding_boxes_piped_tag_single_detection :
    extract_bounding_boxes "<|det|>0.1,0.2,0.6,0.8<|/det|>" (1000, 500) =
      [(100, 100, 600, 400)] := by decide

/-- C6: the parsing loop is tolerant. A match whose conversion fails (its
coordinates do not parse as numbers, or are not all within `[0, 1]`) is
skipped: deleting it from the match list does not change the result, so it is
absent from the output while every other match is handled unchanged. And the
whole parse is the in-order `filterMap` of the per-match conversion over the
matches found in the text, so valid matches appear in order of appearance;
the embedding is a total function, mirroring that every per-match failure is
caught inside the loop and never escapes the call. -/
theorem extract_bounding_boxes_tolerant (text : String) (w h : ℚ)
    (pre post : List DetMatch) (m : DetMatch) (hm : convertMatch w h m = none) :
    scaleLoop w h (pre ++ m :: post) = scaleLoop w h (pre ++ post) ∧
    extract_bounding_boxes text (w, h) = (findDetMatches text).filterMap (convertMatch w h) := by
  constructor
  · rw [scaleLoop_eq_filterMap, scaleLoop_eq_filterMap]
    simp [List.filterMap_append, List.filterMap_cons, hm]
  · simpa [extract_bounding_boxes] using scaleLoop_eq_filterMap w h (findDetMatches text)

unseal Rat.mul Rat.add Rat.inv in
/-- C6, witness: a match with coordinate `1.5` converts to `none` and is
skipped, while the valid match around it is still parsed. -/
theorem extract_bounding_boxes_tolerant_witness :
    convertMatch 100 100 ⟨"1.5", "0.2", "0.6", "0.8"⟩ = none ∧
    (scaleLoop 100 100
        ([] ++ ⟨"1.5", "0.2", "0.6", "0.8"⟩ :: [⟨"0.1", "0.2", "0.6", "0.8"⟩]) =
      scaleLoop 100 100 ([] ++ [⟨"0.1", "0.2", "0.6", "0.8"⟩]) ∧
     extract_bounding_boxes "x" (100, 100) =
      (findDetMatches "x").filterMap (convertMatch 100 100)) :=
  ⟨by decide,
   extract_bounding_boxes_tolerant "x" 100 100 [] [⟨"0.1", "0.2", "0.6", "0.8"⟩]
     ⟨"1.5", "0.2", "0.6", "0.8"⟩ (by decide)⟩

/-! ## Claims C3, C9, C10: the model resource manager -/

/-- A loading environment in which every external loading step succeeds. -/
def envAllOk : LoadEnv := ⟨.ok 1, .ok 2, .ok 2⟩

/-- C3: once a construction attempt has failed (`loadingError` caches a
reason and no model is cached), every subsequent `get_model` call raises
immediately with the cached reason, leaves the state unchanged, and performs
no construction side effect at all: neither the tokenizer load nor a model
load is re-entered. -/
theorem get_model_failed_is_sticky (env : LoadEnv) (s : MState) (e : String)
    (hm : s.model = none) (he : s.loadingError = some e) :
    get_model env s =
      (s, [], .error (.runtimeError ("Model loading previously failed: " ++ e))) := by
  simp [get_model, hm, he]

/-- C3, witness at a concrete failed state. -/
theorem get_model_failed_is_sticky_witness :
    MState.model ⟨none, none, some "boom"⟩ = none ∧
    MState.loadingError ⟨none, none, some "boom"⟩ = some "boom" ∧
    get_model envAllOk ⟨none, none, some "boom"⟩ =
      (⟨none, none, some "boom"⟩, [],
       .error (.runtimeError ("Model loading previously failed: " ++ "boom"))) :=
  ⟨rfl, rfl, get_model_failed_is_sticky envAllOk ⟨none, none, some "boom"⟩ "boom" rfl rfl⟩

/-- C9, counterexample: `get_model` takes no lock, so two callers interleaved
while the state is unloaded can both pass the cached-model and cached-error
checks before either assigns, and then BOTH perform the underlying
construction: the schedule below makes the tokenizer load happen twice, even
though both callers finish in the same successful terminal state. This
falsifies the claim that exactly one underlying construction is performed. -/
theorem get_model_concurrent_double_construction :
    (runSched envAllOk envAllOk [true, true, false, false, true, true, false, false]
        ⟨.start, .start, ⟨none, none, none⟩⟩).2.count .loadTok = 2 ∧
    (runSched envAllOk envAllOk [true, true, false, false, true, true, false, false]
        ⟨.start, .start, ⟨none, none, none⟩⟩).1 =
      ⟨.done (.ok (some 2, some 1)), .done (.ok (some 2, some 1)), ⟨some 2, some 1, none⟩⟩ := by
  exact ⟨by decide, by decide⟩

theorem get_model_cached (env : LoadEnv) (s : MState) (hm : s.model.isSome) :
    get_model env s = (s, [], .ok (s.model, s.tokenizer)) := by
  simp [get_model, hm]

theorem get_model_ok_inv (env : LoadEnv) (s s1 : MState) (evs : List Ev)
    (p : Option Nat × Option Nat) (h : get_model env s = (s1, evs, .ok p)) :
    s1.model.isSome ∧ p = (s1.model, s1.tokenizer) := by
  unfold get_model at h
  split at h
  · next hm =>
      simp only [Prod.mk.injEq] at h
      obtain ⟨rfl, -, h3⟩ := h
      exact ⟨hm, (Except.ok.inj h3).symm⟩
  · split at h
    · simp at h
    · split at h
      · simp at h
      · simp at h
      · split at h
        · simp only [Prod.mk.injEq] at h
          obtain ⟨rfl, -, h3⟩ := h
          exact ⟨rfl, (Except.ok.inj h3).symm⟩
        · split at h
          · simp only [Prod.mk.injEq] at h
            obtain ⟨rfl, -, h3⟩ := h
            exact ⟨rfl, (Except.ok.inj h3).symm⟩
          · simp at h
          · simp at h

/-- C9, amended: the manager does not serialize concurrent callers (see the
counterexample, where an interleaving of two callers performs the
construction twice); single construction holds only sequentially: once one
`get_model` call has completed successfully, any later call returns the
cached handles immediately with no construction side effect. -/
theorem get_model_sequential_single_construction (env1 env2 : LoadEnv)
    (s s1 : MState) (evs : List Ev) (p : Option Nat × Option Nat)
    (h : get_model env1 s = (s1, evs, .ok p)) :
    get_model env2 s1 = (s1, [], .ok p) := by
  obtain ⟨hm, rfl⟩ := get_model_ok_inv env1 s s1 evs p h
  exact get_model_cached env2 s1 hm

/-- C9, witness for the amended theorem: after one successful call from the
unloaded state, a second call returns the cached pair with no events. -/
theorem get_model_sequential_single_construction_witness :
    get_model envAllOk ⟨none, none, none⟩ =
      (⟨some 2, some 1, none⟩, [.loadTok, .loadModelFlash], .ok (some 2, some 1)) ∧
    get_model envAllOk ⟨some 2, some 1, none⟩ =
      (⟨some 2, some 1, none⟩, [], .ok (some 2, some 1)) :=
  ⟨rfl, get_model_sequential_single_construction envAllOk envAllOk
    ⟨none, none, none⟩ ⟨some 2, some 1, none⟩ [.loadTok, .loadModelFlash]
    (some 2, some 1) rfl⟩

/-- C10: `clear_cache` resets the manager to the unloaded state from every
state, including a failed one: model, tokenizer and the cached loading error
all become `none`, and a `get_model` after `clear_cache` re-attempts
construction (the tokenizer load is performed) whatever the environment does,
so the cached failure is not sticky across `clear_cache`. -/
theorem clear_cache_resets_and_get_model_reloads (s : MState) (env : LoadEnv) :
    (clear_cache s).1 = ⟨none, none, none⟩ ∧
    .loadTok ∈ (get_model env (clear_cache s).1).2.1 := by
  refine ⟨rfl, ?_⟩
  rcases env with ⟨tr, fr, dr⟩
  cases tr <;> cases fr <;> cases dr <;> simp [get_model, clear_cache]

/-! ## Claim C7: the prompt builder -/

/-- C7: `build_prompt` fails with the missing-reference `ValueError` for the
`locate` task when `ref_text` is absent or empty; with `ref_text = "total"`
it returns the locate template with `total` substituted verbatim into the
slot; and for every other task the `ref_text` argument does not affect the
result. -/
theorem build_prompt_locate_ref_handling :
    build_prompt "locate" none =
      .error (.valueError "Reference text is required for 'locate' task") ∧
    build_prompt "locate" (some "") =
      .error (.valueError "Reference text is required for 'locate' task") ∧
    build_prompt "locate" (some "total") =
      .ok "<image>\nLocate <|ref|>total<|/ref|> in the image." ∧
    ∀ t r1 r2, t ≠ "locate" → build_prompt t r1 = build_prompt t r2 := by
  refine ⟨rfl, rfl, by decide, ?_⟩
  intro t r1 r2 ht
  unfold build_prompt
  cases TASK_PROMPTS t <;> simp [ht]

/-- C7, witness for the final universally quantified conjunct at a concrete
non-locate task. -/
theorem build_prompt_locate_ref_handling_witness :
    ("markdown" : String) ≠ "locate" ∧
    build_prompt "markdown" none = build_prompt "markdown" (some "anything") :=
  ⟨by decide, build_prompt_locate_ref_handling.2.2.2 "markdown" none (some "anything")
    (by decide)⟩

/-! ## Claims C4, C5: the inference driver -/

/-- C4, counterexample: with a valid image, the `locate` task and a missing
reference text, `run_inference` raises the missing-reference `ValueError`,
but only AFTER `ModelManager.get_model` has been called and a full model
construction (tokenizer load and model load) has been performed: acquisition
is not last, it comes before prompt validation. -/
theorem run_inference_locate_missing_ref_still_constructs :
    run_inference envAllOk (.ok "") ⟨none, none, none⟩ true 100 100 "Gundam" "locate" none =
      (⟨some 2, some 1, none⟩, [.getModelCall, .loadTok, .loadModelFlash],
       .error (.valueError "Reference text is required for 'locate' task")) ∧
    Ev.loadTok ∈ [Ev.getModelCall, Ev.loadTok, Ev.loadModelFlash] := by
  exact ⟨rfl, by decide⟩

/-- C4, amended: `run_inference` checks only that the image is a PIL image
before acquiring the model; the model resource is acquired second, before
image preprocessing and prompt building. Hence an invalid image surfaces its
`ValueError` with no acquisition at all (empty trace), while on every valid
image the very first event of the trace is the `get_model` call, so
invalid size/task/reference parameters surface their `ValueError` only after
acquisition has been attempted. -/
theorem run_inference_validates_image_then_acquires (env : LoadEnv) (inf : InferRes)
    (s : MState) (w h : ℚ) (model_size task_type : String) (ref_text : Option String) :
    run_inference env inf s false w h model_size task_type ref_text =
      (s, [], .error (.valueError "Invalid image: must be a PIL Image object")) ∧
    (run_inference env inf s true w h model_size task_type ref_text).2.1.head? =
      some .getModelCall := by
  constructor
  · rfl
  · rcases hg : get_model env s with ⟨s1, evs1, r⟩
    rcases r with e | pr
    · cases e <;> simp [run_inference, hg]
    · rcases hsz : SIZE_CONFIGS model_size with - | cfg
      · simp [run_inference, hg, hsz]
      · rcases hp : build_prompt task_type ref_text with e2 | pr2
        · simp [run_inference, hg, hsz, hp]
        · cases inf <;> simp [run_inference, hg, hsz, hp]

/-- C5, counterexample: when the model invocation fails, the inner handler
wraps the failure into a `RuntimeError` and `run_inference` re-raises it
through its generic handler WITHOUT a trailing GPU cache clear: the last
event of the trace is the invocation itself, so the cache is not cleared
after this failed attempt. -/
theorem run_inference_failed_invocation_no_trailing_cache_clear :
    run_inference envAllOk (.fail "boom") ⟨none, none, none⟩ true 100 100 "Tiny" "free_ocr" none =
      (⟨some 2, some 1, none⟩,
       [.getModelCall, .loadTok, .loadModelFlash, .emptyCache, .invoke],
       .error (.runtimeError "Inference failed: Model inference failed: boom")) ∧
    [Ev.getModelCall, Ev.loadTok, Ev.loadModelFlash, Ev.emptyCache, Ev.invoke].getLast? =
      some Ev.invoke := by
  exact ⟨rfl, rfl⟩

/-- C5, amended: on every run that reaches the model invocation, the GPU
cache is cleared immediately before the invocation; after the invocation it
is cleared only when the invocation succeeds — a failed invocation ends the
trace at the invocation event with no further cache clear. -/
theorem run_inference_cache_clear_trace (env : LoadEnv) (s s1 : MState) (evs : List Ev)
    (p : Option Nat × Option Nat) (w h : ℚ) (model_size task_type : String)
    (ref_text : Option String) (cfg : SizeConfig) (text msg prompt : String)
    (hg : get_model env s = (s1, evs, .ok p))
    (hsz : SIZE_CONFIGS model_size = some cfg)
    (hp : build_prompt task_type ref_text = .ok prompt) :
    (run_inference env (.ok text) s true w h model_size task_type ref_text).2.1 =
      .getModelCall :: (evs ++ [.emptyCache, .invoke, .emptyCache]) ∧
    (run_inference env (.fail msg) s true w h model_size task_type ref_text).2.1 =
      .getModelCall :: (evs ++ [.emptyCache, .invoke]) := by
  constructor <;> simp [run_inference, hg, hsz, hp]

/-- C5, witness for the amended theorem at a concrete successful and a
concrete failing invocation. -/
theorem run_inference_cache_clear_trace_witness :
    get_model envAllOk ⟨none, none, none⟩ =
      (⟨some 2, some 1, none⟩, [.loadTok, .loadModelFlash], .ok (some 2, some 1)) ∧
    SIZE_CONFIGS "Tiny" = some ⟨512, 512, false⟩ ∧
    build_prompt "free_ocr" none = .ok "<image>\nFree OCR." ∧
    ((run_inference envAllOk (.ok "hello") ⟨none, none, none⟩ true 100 100
        "Tiny" "free_ocr" none).2.1 =
      .getModelCall :: ([.loadTok, .loadModelFlash] ++ [.emptyCache, .invoke, .emptyCache]) ∧
     (run_inference envAllOk (.fail "boom") ⟨none, none, none⟩ true 100 100
        "Tiny" "free_ocr" none).2.1 =
      .getModelCall :: ([.loadTok, .loadModelFlash] ++ [.emptyCache, .invoke])) :=
  ⟨rfl, rfl, rfl,
   run_inference_cache_clear_trace envAllOk ⟨none, none, none⟩ ⟨some 2, some 1, none⟩
     [.loadTok, .loadModelFlash] (some 2, some 1) 100 100 "Tiny" "free_ocr" none
     ⟨512, 512, false⟩ "hello" "boom" "<image>\nFree OCR." rfl rfl rfl⟩

/-! ## Claim C8: idempotence of the image preprocessor -/

theorem convertRGB_mode {Pix : Type} (conv : Pix → Pix) (img : PilImage Pix) :
    (convertRGB conv img).mode = "RGB" := by
  unfold convertRGB
  split
  · next h => exact h
  · rfl

theorem convertRGB_width {Pix : Type} (conv : Pix → Pix) (img : PilImage Pix) :
    (convertRGB conv img).width = img.width := by
  unfold convertRGB; split <;> rfl

theorem convertRGB_height {Pix : Type} (conv : Pix → Pix) (img : PilImage Pix) :
    (convertRGB conv img).height = img.height := by
  unfold convertRGB; split <;> rfl

theorem convertRGB_rgb {Pix : Type} (conv : Pix → Pix) (img : PilImage Pix)
    (h : img.mode = "RGB") : convertRGB conv img = img := by
  unfold convertRGB
  rw [if_pos h]

theorem thumbnail_mode {Pix : Type} (resample : Pix → Nat → Nat → Pix)
    (img : PilImage Pix) (boxW boxH : Nat) :
    (thumbnail resample img boxW boxH).mode = img.mode := by
  unfold thumbnail
  split
  · rfl
  · split <;> rfl

/-- PIL `thumbnail` leaves an image unchanged when it already fits the box. -/
theorem thumbnail_fits {Pix : Type} (resample : Pix → Nat → Nat → Pix)
    (img : PilImage Pix) (boxW boxH : Nat)
    (hw : img.width ≤ boxW) (hh : img.height ≤ boxH) :
    thumbnail resample img boxW boxH = img := by
  unfold thumbnail thumbnailSize
  rw [if_pos ⟨hw, hh⟩]

/-- The size computed by `thumbnailSize` never exceeds the bounding box. -/
theorem thumbnailSize_le {w h box w' h' : Nat} (hh : 0 < h) (hb : 0 < box)
    (hs : thumbnailSize w h box box = some (w', h')) : w' ≤ box ∧ h' ≤ box := by
  have hbQ : (0 : ℚ) < (box : ℚ) := by exact_mod_cast hb
  have hb1 : (1 : ℤ) ≤ (box : ℤ) := by exact_mod_cast hb
  unfold thumbnailSize at hs
  rw [div_self (ne_of_gt hbQ)] at hs
  by_cases hfit : box ≥ w ∧ box ≥ h
  · rw [if_pos hfit] at hs
    exact Option.noConfusion hs
  · rw [if_neg hfit] at hs
    by_cases hbr : (1 : ℚ) ≥ (w : ℚ) / (h : ℚ)
    · rw [if_pos hbr] at hs
      obtain ⟨h1, h2⟩ := Prod.mk.inj (Option.some.inj hs)
      subst h1
      subst h2
      refine ⟨?_, le_refl box⟩
      rw [Int.toNat_le]
      unfold round_aspect
      have hNle : (box : ℚ) * ((w : ℚ) / (h : ℚ)) ≤ (box : ℚ) := by
        calc (box : ℚ) * ((w : ℚ) / (h : ℚ)) ≤ (box : ℚ) * 1 :=
              mul_le_mul_of_nonneg_left (ge_iff_le.mp hbr) (le_of_lt hbQ)
          _ = (box : ℚ) := mul_one _
      have hceil : ⌈(box : ℚ) * ((w : ℚ) / (h : ℚ))⌉ ≤ (box : ℤ) := by
        rw [Int.ceil_le]
        push_cast
        exact hNle
      apply max_le
      · split
        · exact le_trans (Int.floor_le_ceil _) hceil
        · exact hceil
      · exact hb1
    · rw [if_neg hbr] at hs
      obtain ⟨h1, h2⟩ := Prod.mk.inj (Option.some.inj hs)
      subst h1
      subst h2
      refine ⟨le_refl box, ?_⟩
      rw [Int.toNat_le]
      unfold round_aspect
      have haspect : (1 : ℚ) ≤ (w : ℚ) / (h : ℚ) := le_of_lt (lt_of_not_ge hbr)
      have hNle : (box : ℚ) / ((w : ℚ) / (h : ℚ)) ≤ (box : ℚ) :=
        div_le_self (le_of_lt hbQ) haspect
      have hceil : ⌈(box : ℚ) / ((w : ℚ) / (h : ℚ))⌉ ≤ (box : ℤ) := by
        rw [Int.ceil_le]
        push_cast
        exact hNle
      apply max_le
      · split
        · exact le_trans (Int.floor_le_ceil _) hceil
        · exact hceil
      · exact hb1

/-- After `thumbnail` into a square box, both dimensions are bounded by the
box. -/
theorem thumbnail_dims_le {Pix : Type} (resample : Pix → Nat → Nat → Pix)
    (img : PilImage Pix) (box : Nat) (hh : 0 < img.height) (hb : 0 < box) :
    (thumbnail resample img box box).width ≤ box ∧
    (thumbnail resample img box box).height ≤ box := by
  unfold thumbnail
  split
  · next hts =>
      by_cases hfit : box ≥ img.width ∧ box ≥ img.height
      · exact ⟨hfit.1, hfit.2⟩
      · unfold thumbnailSize at hts
        rw [if_neg hfit] at hts
        split_ifs at hts
  · next w' h' hts =>
      obtain ⟨hd1, hd2⟩ := thumbnailSize_le hh hb hts
      split
      · next heq => exact ⟨by rw [heq.1]; exact hd1, by rw [heq.2]; exact hd2⟩
      · exact ⟨hd1, hd2⟩

theorem SIZE_CONFIGS_image_size_pos {s : String} {cfg : SizeConfig}
    (h : SIZE_CONFIGS s = some cfg) : 0 < cfg.image_size := by
  unfold SIZE_CONFIGS at h
  split_ifs at h <;> simp only [Option.some.injEq] at h <;> subst h <;> decide

/-- C8: `preprocess_image` is idempotent on every valid image (positive
dimensions), for every valid size profile, every color-conversion kernel and
every resampling kernel: the first application leaves an RGB image both of
whose dimensions are bounded by the configured size, so the second
application changes nothing — the bitmap (mode, dimensions and pixel data) is
identical. -/
theorem preprocess_image_idempotent {Pix : Type} (conv : Pix → Pix)
    (resample : Pix → Nat → Nat → Pix) (img img' : PilImage Pix) (model_size : String)
    (hw : 0 < img.width) (hh : 0 < img.height)
    (h1 : preprocess_image conv resample img model_size = .ok img') :
    preprocess_image conv resample img' model_size = .ok img' := by
  unfold preprocess_image at h1 ⊢
  rcases hsz : SIZE_CONFIGS model_size with - | cfg
  · rw [hsz] at h1
    exact Except.noConfusion h1
  · rw [hsz] at h1
    have hpos := SIZE_CONFIGS_image_size_pos hsz
    have h2 : thumbnail resample (convertRGB conv img) cfg.image_size cfg.image_size = img' :=
      Except.ok.inj h1
    show Except.ok (thumbnail resample (convertRGB conv img') cfg.image_size cfg.image_size) =
      Except.ok img'
    have hmode : img'.mode = "RGB" := by
      rw [← h2, thumbnail_mode]
      exact convertRGB_mode conv img
    have hdims : img'.width ≤ cfg.image_size ∧ img'.height ≤ cfg.image_size := by
      rw [← h2]
      exact thumbnail_dims_le resample (convertRGB conv img) cfg.image_size
        (by rw [convertRGB_height]; exact hh) hpos
    rw [convertRGB_rgb conv img' hmode, thumbnail_fits resample img' _ _ hdims.1 hdims.2]

unseal Rat.mul Rat.add Rat.inv Rat.sub in
/-- C8, witness: a 2000 x 1000 grayscale image under the `Tiny` profile, with
a concrete data-changing conversion and resampling kernel; the first
application resizes to 512 x 256, the second application is the identity. -/
theorem preprocess_image_idempotent_witness :
    0 < (2000 : Nat) ∧ 0 < (1000 : Nat) ∧
    preprocess_image (fun d => d + 1) (fun _ w h => w * 1000 + h)
        (⟨"L", 2000, 1000, 7⟩ : PilImage Nat) "Tiny" = .ok ⟨"RGB", 512, 256, 512256⟩ ∧
    preprocess_image (fun d => d + 1) (fun _ w h => w * 1000 + h)
        (⟨"RGB", 512, 256, 512256⟩ : PilImage Nat) "Tiny" = .ok ⟨"RGB", 512, 256, 512256⟩ :=
  ⟨by decide, by decide, by decide,
   preprocess_image_idempotent (fun d => d + 1) (fun _ w h => w * 1000 + h)
     ⟨"L", 2000, 1000, 7⟩ ⟨"RGB", 512, 256, 512256⟩ "Tiny" (by decide) (by decide) (by decide)⟩
